import Mathlib

/-!
Verification of the socket personality layer and futex subsystem of a
Linux-on-Win32 emulation layer (sources: src/fs/socket.c, src/syscall/futex.c).

The C code is shallowly embedded: every function under test is translated to an
executable Lean definition over explicit state; host/OS interactions (WinSock
calls, event waits, signal delivery) are supplied as oracle arguments so that
each code path of the source is represented by a value of the oracle.
Machine integers are modelled as Int/Nat; the Linux errno and WinSock error
constants carry their standard numeric values.
-/

/- Linux errno constants (common/errno.h values, x86). The source returns
negated constants, written here as `- L_Exxx`. -/

def L_EPERM : Int := 1
def L_EINTR : Int := 4
def L_EIO : Int := 5
def L_EBADF : Int := 9
def L_EAGAIN : Int := 11
def L_EWOULDBLOCK : Int := 11
def L_ENOMEM : Int := 12
def L_EACCES : Int := 13
def L_EFAULT : Int := 14
def L_EINVAL : Int := 22
def L_ENFILE : Int := 23
def L_EMFILE : Int := 24
def L_ENAMETOOLONG : Int := 36
def L_ENOSYS : Int := 38
def L_ENOTEMPTY : Int := 39
def L_ELOOP : Int := 40
def L_ENOTSOCK : Int := 88
def L_EDESTADDRREQ : Int := 89
def L_EMSGSIZE : Int := 90
def L_EPROTOTYPE : Int := 91
def L_ENOPROTOOPT : Int := 92
def L_EPROTONOSUPPORT : Int := 93
def L_EOPNOTSUPP : Int := 95
def L_EPFNOSUPPORT : Int := 96
def L_EAFNOSUPPORT : Int := 97
def L_EADDRINUSE : Int := 98
def L_EADDRNOTAVAIL : Int := 99
def L_ENETDOWN : Int := 100
def L_ENETUNREACH : Int := 101
def L_ENETRESET : Int := 102
def L_ECONNABORTED : Int := 103
def L_ECONNRESET : Int := 104
def L_ENOBUFS : Int := 105
def L_EISCONN : Int := 106
def L_ENOTCONN : Int := 107
def L_ETIMEDOUT : Int := 110
def L_EHOSTUNREACH : Int := 113
def L_ECONNREFUSED : Int := 111
def L_EALREADY : Int := 114
def L_EINPROGRESS : Int := 115
def L_ECANCELED : Int := 125

/- WinSock error constants (standard Windows values). -/

def WSA_NOT_ENOUGH_MEMORY : Int := 8
def WSAEINTR : Int := 10004
def WSAEBADF : Int := 10009
def WSAEACCES : Int := 10013
def WSAEFAULT : Int := 10014
def WSAEINVAL : Int := 10022
def WSAEMFILE : Int := 10024
def WSAEWOULDBLOCK : Int := 10035
def WSAEALREADY : Int := 10037
def WSAENOTSOCK : Int := 10038
def WSAEDESTADDRREQ : Int := 10039
def WSAEMSGSIZE : Int := 10040
def WSAEPROTOTYPE : Int := 10041
def WSAENOPROTOOPT : Int := 10042
def WSAEPROTONOSUPPORT : Int := 10043
def WSAESOCKTNOSUPPORT : Int := 10044
def WSAEOPNOTSUPP : Int := 10045
def WSAEPFNOSUPPORT : Int := 10046
def WSAEAFNOSUPPORT : Int := 10047
def WSAEADDRINUSE : Int := 10048
def WSAEADDRNOTAVAIL : Int := 10049
def WSAENETDOWN : Int := 10050
def WSAENETUNREACH : Int := 10051
def WSAENETRESET : Int := 10052
def WSAECONNABORTED : Int := 10053
def WSAECONNRESET : Int := 10054
def WSAENOBUFS : Int := 10055
def WSAEISCONN : Int := 10056
def WSAENOTCONN : Int := 10057
def WSAETIMEDOUT : Int := 10060
def WSAECONNREFUSED : Int := 10061
def WSAELOOP : Int := 10062
def WSAENAMETOOLONG : Int := 10063
def WSAEHOSTDOWN : Int := 10064
def WSAEHOSTUNREACH : Int := 10065
def WSAENOTEMPTY : Int := 10066
def WSAECANCELLED : Int := 10103

/-- Embedding of `translate_socket_error` (socket.c:77-123): the dense switch
from host socket error codes to negated Linux errno values, rendered as the
corresponding chain of equality tests; the default case logs and returns
`-L_EIO`. -/
def translate_socket_error (error : Int) : Int :=
  if error = 0 then 0
  else if error = WSA_NOT_ENOUGH_MEMORY then - L_ENOMEM
  else if error = WSAEINTR then - L_EINTR
  else if error = WSAEBADF then - L_EBADF
  else if error = WSAEACCES then - L_EACCES
  else if error = WSAEFAULT then - L_EFAULT
  else if error = WSAEINVAL then - L_EINVAL
  else if error = WSAEMFILE then - L_EMFILE
  else if error = WSAEWOULDBLOCK then - L_EWOULDBLOCK
  else if error = WSAEALREADY then - L_EALREADY
  else if error = WSAENOTSOCK then - L_ENOTSOCK
  else if error = WSAEDESTADDRREQ then - L_EDESTADDRREQ
  else if error = WSAEMSGSIZE then - L_EMSGSIZE
  else if error = WSAEPROTOTYPE then - L_EPROTOTYPE
  else if error = WSAENOPROTOOPT then - L_ENOPROTOOPT
  else if error = WSAEPROTONOSUPPORT then - L_EPROTONOSUPPORT
  else if error = WSAESOCKTNOSUPPORT then - L_EPROTONOSUPPORT
  else if error = WSAEOPNOTSUPP then - L_EOPNOTSUPP
  else if error = WSAEPFNOSUPPORT then - L_EPFNOSUPPORT
  else if error = WSAEAFNOSUPPORT then - L_EAFNOSUPPORT
  else if error = WSAEADDRINUSE then - L_EADDRINUSE
  else if error = WSAEADDRNOTAVAIL then - L_EADDRNOTAVAIL
  else if error = WSAENETDOWN then - L_ENETDOWN
  else if error = WSAENETUNREACH then - L_ENETUNREACH
  else if error = WSAENETRESET then - L_ENETRESET
  else if error = WSAECONNABORTED then - L_ECONNABORTED
  else if error = WSAECONNRESET then - L_ECONNRESET
  else if error = WSAENOBUFS then - L_ENOBUFS
  else if error = WSAEISCONN then - L_EISCONN
  else if error = WSAENOTCONN then - L_ENOTCONN
  else if error = WSAETIMEDOUT then - L_ETIMEDOUT
  else if error = WSAECONNREFUSED then - L_ECONNREFUSED
  else if error = WSAELOOP then - L_ELOOP
  else if error = WSAENAMETOOLONG then - L_ENAMETOOLONG
  else if error = WSAEHOSTDOWN then - L_ETIMEDOUT
  else if error = WSAEHOSTUNREACH then - L_EHOSTUNREACH
  else if error = WSAENOTEMPTY then - L_ENOTEMPTY
  else if error = WSAECANCELLED then - L_ECANCELED
  else - L_EIO

/-- The specified host-error/Linux-errno table: one pair per case of the
switch in `translate_socket_error`, transcribed independently of the function
so that the theorem checks the function against the table. -/
def socket_error_table : List (Int × Int) :=
  [(0, 0),
   (WSA_NOT_ENOUGH_MEMORY, - L_ENOMEM),
   (WSAEINTR, - L_EINTR),
   (WSAEBADF, - L_EBADF),
   (WSAEACCES, - L_EACCES),
   (WSAEFAULT, - L_EFAULT),
   (WSAEINVAL, - L_EINVAL),
   (WSAEMFILE, - L_EMFILE),
   (WSAEWOULDBLOCK, - L_EWOULDBLOCK),
   (WSAEALREADY, - L_EALREADY),
   (WSAENOTSOCK, - L_ENOTSOCK),
   (WSAEDESTADDRREQ, - L_EDESTADDRREQ),
   (WSAEMSGSIZE, - L_EMSGSIZE),
   (WSAEPROTOTYPE, - L_EPROTOTYPE),
   (WSAENOPROTOOPT, - L_ENOPROTOOPT),
   (WSAEPROTONOSUPPORT, - L_EPROTONOSUPPORT),
   (WSAESOCKTNOSUPPORT, - L_EPROTONOSUPPORT),
   (WSAEOPNOTSUPP, - L_EOPNOTSUPP),
   (WSAEPFNOSUPPORT, - L_EPFNOSUPPORT),
   (WSAEAFNOSUPPORT, - L_EAFNOSUPPORT),
   (WSAEADDRINUSE, - L_EADDRINUSE),
   (WSAEADDRNOTAVAIL, - L_EADDRNOTAVAIL),
   (WSAENETDOWN, - L_ENETDOWN),
   (WSAENETUNREACH, - L_ENETUNREACH),
   (WSAENETRESET, - L_ENETRESET),
   (WSAECONNABORTED, - L_ECONNABORTED),
   (WSAECONNRESET, - L_ECONNRESET),
   (WSAENOBUFS, - L_ENOBUFS),
   (WSAEISCONN, - L_EISCONN),
   (WSAENOTCONN, - L_ENOTCONN),
   (WSAETIMEDOUT, - L_ETIMEDOUT),
   (WSAECONNREFUSED, - L_ECONNREFUSED),
   (WSAELOOP, - L_ELOOP),
   (WSAENAMETOOLONG, - L_ENAMETOOLONG),
   (WSAEHOSTDOWN, - L_ETIMEDOUT),
   (WSAEHOSTUNREACH, - L_EHOSTUNREACH),
   (WSAENOTEMPTY, - L_ENOTEMPTY),
   (WSAECANCELLED, - L_ECANCELED)]

/-- The set of host error codes recognised by the translator. -/
def recognised_socket_errors : List Int := socket_error_table.map Prod.fst

/-! ## Futex core (src/syscall/futex.c) -/

/-- Futex command constants (common/futex.h, standard Linux values). -/
def FUTEX_WAIT : Nat := 0
def FUTEX_WAKE : Nat := 1
def FUTEX_REQUEUE : Nat := 3
def FUTEX_CMP_REQUEUE : Nat := 4
def FUTEX_PRIVATE_FLAG : Nat := 128
def FUTEX_CLOCK_REALTIME : Nat := 256

/-- FUTEX_CMD_MASK, the 32-bit complement of PRIVATE_FLAG and CLOCK_REALTIME. -/
def FUTEX_CMD_MASK : Nat := 0xFFFFFE7F

def FUTEX_HASH_BUCKETS : Nat := 256

/-- Hash of a user address into a bucket index (futex.c:84-88). -/
def futex_hash (addr : Nat) : Nat := addr % FUTEX_HASH_BUCKETS

/-- One `struct futex_wait_block`: the waiting thread and the futex address it
waits on (the intrusive list node is the position in the bucket list). -/
structure WaitBlock where
  thread : Nat
  addr : Nat
deriving DecidableEq

/-- The global futex state: the wait list of each hash bucket. -/
def FutexState : Type := Nat → List WaitBlock

/-- Replace one bucket's wait list. -/
def bucketUpdate (st : FutexState) (b : Nat) (l : List WaitBlock) : FutexState :=
  fun i => if i = b then l else st i

/-- Outcome of the blocking `signal_wait` on the thread's wake event:
woken by a waker, interrupted by a signal, or timed out. -/
inductive WaitResult where
  | woken
  | interrupted
  | timeout
deriving DecidableEq

def sizeof_int : Nat := 4
def sizeof_linux_timespec : Nat := 8

/-- Remove the first wait block with the given thread and address. -/
def eraseBlock : List WaitBlock → Nat → Nat → List WaitBlock
  | [], _, _ => []
  | b :: rest, t, a =>
    if b.thread = t ∧ b.addr = a then rest else b :: eraseBlock rest t a

/-- Embedding of `futex_wait` (futex.c:90-134).  `mem addr` is the value read
from the futex word under the bucket lock.  On value mismatch the call
returns 0 at once, touching no list.  Otherwise the wait block is appended to
the bucket list and the thread blocks; on every return path the block is gone
from the bucket again (removed by the waker on a normal wake, removed by this
thread itself after an interrupted or timed-out wait), and the outcome of the
blocking `signal_wait` is the oracle `outcome`. -/
def futex_wait (mem : Nat → Int) (st : FutexState) (tid addr : Nat) (val : Int)
    (outcome : WaitResult) : Int × FutexState :=
  if mem addr ≠ val then (0, st)
  else
    let bucket := futex_hash addr
    let stq : FutexState := bucketUpdate st bucket (st bucket ++ [⟨tid, addr⟩])
    let stFin : FutexState := bucketUpdate stq bucket (eraseBlock (stq bucket) tid addr)
    match outcome with
    | .woken => (0, stFin)
    | .interrupted => (- L_EINTR, stFin)
    | .timeout => (- L_ETIMEDOUT, stFin)

/-- The list walk of `futex_wake_requeue` (futex.c:160-202) over one source
bucket list, carrying `num_woken`.  `req = none` is wake mode: the loop breaks
as soon as `num_woken = count` and each matching block is removed and its
thread signalled.  `req = some (raddr, same)` is requeue mode: matching blocks
are woken while `num_woken ≠ count`; once `num_woken = count` each further
matching block has its address rewritten to `raddr` and is either left in
place (`same = true`, the two buckets coincide) or moved to the destination
bucket.  Returns (remaining source list, blocks moved to the destination
bucket in traversal order, woken thread ids in wake order, final num_woken). -/
def fwr_list (addr : Nat) (count : Int) (req : Option (Nat × Bool)) :
    List WaitBlock → Int → List WaitBlock × List WaitBlock × List Nat × Int
  | [], n => ([], [], [], n)
  | b :: rest, n =>
    if req = none ∧ n = count then (b :: rest, [], [], n)
    else if b.addr = addr then
      match req with
      | some (raddr, same) =>
        if n = count then
          let r := fwr_list addr count req rest n
          if same then (⟨b.thread, raddr⟩ :: r.1, r.2.1, r.2.2.1, r.2.2.2)
          else (r.1, ⟨b.thread, raddr⟩ :: r.2.1, r.2.2.1, r.2.2.2)
        else
          let r := fwr_list addr count req rest (n + 1)
          (r.1, r.2.1, b.thread :: r.2.2.1, r.2.2.2)
      | none =>
        let r := fwr_list addr count req rest (n + 1)
        (r.1, r.2.1, b.thread :: r.2.2.1, r.2.2.2)
    else
      let r := fwr_list addr count req rest n
      (b :: r.1, r.2.1, r.2.2.1, r.2.2.2)

/-- Embedding of `futex_wake_requeue` (futex.c:136-207).  `requeue = none` is
`futex_wake`; `some (raddr, none)` is REQUEUE; `some (raddr, some v)` is
CMP_REQUEUE with expected value `v` (the source passes a pointer to its local
`val3`, so the comparison is `mem addr ≠ v`).  Returns the number of threads
woken, the woken thread ids (the NtSetEvent side effects), and the new bucket
state. -/
def futex_wake_requeue (mem : Nat → Int) (st : FutexState) (addr : Nat)
    (count : Int) (requeue : Option (Nat × Option Int)) :
    Int × List Nat × FutexState :=
  let bucket := futex_hash addr
  match requeue with
  | none =>
    let r := fwr_list addr count none (st bucket) 0
    (r.2.2.2, r.2.2.1, bucketUpdate st bucket r.1)
  | some (raddr, rval) =>
    let bucket2 := futex_hash raddr
    let same := bucket == bucket2
    let run : Int × List Nat × FutexState :=
      let r := fwr_list addr count (some (raddr, same)) (st bucket) 0
      let st1 := bucketUpdate st bucket r.1
      let st2 := if same then st1 else bucketUpdate st1 bucket2 (st1 bucket2 ++ r.2.1)
      (r.2.2.2, r.2.2.1, st2)
    match rval with
    | some v => if mem addr ≠ v then (- L_EAGAIN, [], st) else run
    | none => run

/-- Embedding of the `futex` syscall dispatcher (futex.c:219-255).
`mm_check_read p sz` is the memory manager's read validation; `mem` is guest
memory (read only after validation passes); `timeout` is the timeout pointer
(`none` when NULL).  The translation of the timeout value to milliseconds does
not affect any modelled outcome and is elided; the blocking outcome is the
oracle `outcome`. -/
def sys_futex (mm_check_read : Nat → Nat → Bool) (mem : Nat → Int)
    (st : FutexState) (tid uaddr op : Nat) (val : Int) (timeout : Option Nat)
    (uaddr2 : Nat) (val3 : Int) (outcome : WaitResult) :
    Int × List Nat × FutexState :=
  if ! mm_check_read uaddr sizeof_int then (- L_EACCES, [], st)
  else
    let cmd := op &&& FUTEX_CMD_MASK
    if cmd = FUTEX_WAIT then
      match timeout with
      | some tptr =>
        if ! mm_check_read tptr sizeof_linux_timespec then (- L_EFAULT, [], st)
        else
          let r := futex_wait mem st tid uaddr val outcome
          (r.1, [], r.2)
      | none =>
        let r := futex_wait mem st tid uaddr val outcome
        (r.1, [], r.2)
    else if cmd = FUTEX_WAKE then
      futex_wake_requeue mem st uaddr val none
    else if cmd = FUTEX_REQUEUE then
      if ! mm_check_read uaddr2 sizeof_int then (- L_EACCES, [], st)
      else futex_wake_requeue mem st uaddr val (some (uaddr2, none))
    else if cmd = FUTEX_CMP_REQUEUE then
      if ! mm_check_read uaddr2 sizeof_int then (- L_EACCES, [], st)
      else futex_wake_requeue mem st uaddr val (some (uaddr2, some val3))
    else (- L_ENOSYS, [], st)

/-- Number of waiters recorded for `addr` in its own hash bucket. -/
def waiters_on (st : FutexState) (addr : Nat) : Nat :=
  ((st (futex_hash addr)).filter (fun b => b.addr == addr)).length

/-- Concrete futex state with a single waiter (thread 1) on address 5. -/
def oneWaiterState : FutexState := fun i => if i = 5 then [⟨1, 5⟩] else []

/-! ## Socket layer (src/fs/socket.c) -/

/- Linux and WinSock address family and event constants. -/

def LINUX_AF_UNSPEC : Nat := 0
def LINUX_AF_UNIX : Nat := 1
def LINUX_AF_INET : Nat := 2
def LINUX_AF_INET6 : Nat := 10
def AF_INET6 : Nat := 23

def sizeof_sockaddr_in : Nat := 16
def sizeof_sockaddr_in6 : Nat := 28
def sizeof_ss_family : Nat := 2

def FD_READ : Nat := 1
def FD_WRITE : Nat := 2
def FD_ACCEPT : Nat := 8
def FD_CONNECT : Nat := 16
def FD_CLOSE : Nat := 32

/-- The 16-bit family field at the head of a sockaddr, little endian. -/
def getFamily (bs : List Nat) : Nat := bs.getD 0 0 + 256 * bs.getD 1 0

/-- Overwrite the 16-bit family field of a sockaddr byte image. -/
def setFamily (bs : List Nat) (fam : Nat) : List Nat :=
  fam % 256 :: fam / 256 :: bs.drop 2

/-- Embedding of `translate_socket_addr_to_winsock` (socket.c:125-152) on the
byte image of the guest sockaddr: reject lengths below the family field; for
UNSPEC zero the destination; for INET copy verbatim (the family values
coincide); for INET6 copy verbatim and overwrite the family field with the
host value; reject any other family.  `none` models the SOCKET_ERROR return
(surfaced as -EINVAL by the callers); `some` carries the `addrlen` bytes
handed to the host. -/
def translate_socket_addr_to_winsock (src : List Nat) (addrlen : Nat) :
    Option (List Nat) :=
  if addrlen < sizeof_ss_family then none
  else if getFamily src = LINUX_AF_UNSPEC then
    some (List.replicate addrlen 0)
  else if getFamily src = LINUX_AF_INET then
    if addrlen < sizeof_sockaddr_in then none
    else some (src.take addrlen)
  else if getFamily src = LINUX_AF_INET6 then
    if addrlen < sizeof_sockaddr_in6 then none
    else some (setFamily (src.take addrlen) AF_INET6)
  else none

/-- Embedding of `translate_socket_addr_to_linux` (socket.c:155-164): rewrite
the family field of an INET6 host sockaddr to the Linux value; every other
family passes through unchanged (the returned length is the unchanged input
length, so only the byte image is modelled). -/
def translate_socket_addr_to_linux (addr : List Nat) : List Nat :=
  if getFamily addr = AF_INET6 then setFamily addr LINUX_AF_INET6 else addr

/-- Outcome of one `signal_wait` on the socket event. -/
inductive SigWait where
  | signaled
  | interrupted
deriving DecidableEq

/-- Embedding of `socket_wait_event` (socket.c:278-290).  Each element of the
oracle `trace` is one loop iteration: the event mask returned by
`socket_update_events_unsafe` and the outcome `signal_wait` would have in that
iteration.  Returns the C return value (`none` when the oracle trace runs out
while the loop is still spinning), the unconsumed trace, and the number of
times the interruptible wait primitive was entered. -/
def socket_wait_event (nonblock dontwait : Bool) (event : Nat) :
    List (Nat × SigWait) → Option Int × List (Nat × SigWait) × Nat
  | [] => (none, [], 0)
  | (e, s) :: rest =>
    if e &&& event ≠ 0 then (some 0, rest, 0)
    else if nonblock || dontwait then (some (- L_EWOULDBLOCK), rest, 0)
    else match s with
      | .interrupted => (some (- L_EINTR), rest, 1)
      | .signaled =>
        let r := socket_wait_event nonblock dontwait event rest
        (r.1, r.2.1, r.2.2 + 1)

/-- The thread's last WSA error at the point `socket_connect` reads it after
its blocking wait (socket.c:809-810): each trace entry carries the event mask
reported by `socket_update_events_unsafe`, the captured connect error it
surfaces via WSASetLastError when FD_CONNECT is among the reported events,
and the `signal_wait` outcome of that iteration.  Before the first readiness
the last error is still the `WSAEWOULDBLOCK` left by `connect`. -/
def connect_last_error : List (Nat × Int × SigWait) → Int → Int
  | [], le => le
  | (e, cerr, s) :: rest, le =>
    if e &&& FD_CONNECT ≠ 0 then cerr
    else match s with
      | .interrupted => le
      | .signaled => connect_last_error rest le

/-- The blocking tail of `socket_connect` (socket.c:807-811): wait for
FD_CONNECT readiness — discarding the wait's return value, exactly as the
source does — then translate the thread's last WSA error.  `none` models a
wait that is still pending when the oracle trace runs out. -/
def socket_connect_blocking (trace : List (Nat × Int × SigWait)) : Option Int :=
  match socket_wait_event false false FD_CONNECT
      (trace.map (fun p => (p.1, p.2.2))) with
  | (none, _, _) => none
  | (some _, _, _) =>
    some (translate_socket_error (connect_last_error trace WSAEWOULDBLOCK))

/-- Embedding of the host-connect outcome handling of `socket_connect`
(socket.c:794-812).  `hostErr` is the WSA error of the host `connect` call
(0 for immediate success).  A non-WOULDBLOCK error is translated; WOULDBLOCK
on a non-blocking socket becomes -EINPROGRESS; otherwise the call blocks. -/
def socket_connect (nonblock : Bool) (hostErr : Int)
    (trace : List (Nat × Int × SigWait)) : Option Int :=
  if hostErr = 0 then some 0
  else if hostErr ≠ WSAEWOULDBLOCK then some (translate_socket_error hostErr)
  else if nonblock then some (- L_EINPROGRESS)
  else socket_connect_blocking trace

/-- Host `getsockname` outcome: the sockaddr bytes and length it wrote, or a
WSA error code. -/
inductive HostSockname where
  | ok (bytes : List Nat) (len : Nat)
  | err (code : Int)

/-- Embedding of `socket_getsockname` (socket.c:905-958).  On host success the
address is translated to Linux format and `min addrlenIn len` bytes are copied
out.  On host `WSAEINVAL` (unbound socket) an all-zero sockaddr of the size of
the stored address family is synthesized for INET and INET6; any other stored
family fails with -EOPNOTSUPP.  Other host errors are translated.  The second
component is the bytes written through `addr` and the value written through
`addrlen` (`none` when nothing is written). -/
def socket_getsockname (af : Nat) (host : HostSockname) (addrlenIn : Nat) :
    Int × Option (List Nat × Nat) :=
  match host with
  | .ok bytes len =>
    let bytes' := translate_socket_addr_to_linux bytes
    (0, some (bytes'.take (min addrlenIn len), len))
  | .err code =>
    if code = WSAEINVAL then
      if af = LINUX_AF_INET then
        (0, some (List.replicate (min addrlenIn sizeof_sockaddr_in) 0,
          sizeof_sockaddr_in))
      else if af = LINUX_AF_INET6 then
        (0, some (List.replicate (min addrlenIn sizeof_sockaddr_in6) 0,
          sizeof_sockaddr_in6))
      else (- L_EOPNOTSUPP, none)
    else (translate_socket_error code, none)

/-- Embedding of the loop of `socket_sendmmsg` (socket.c:1151-1189) over the
message vector zipped with the per-message results of
`socket_sendmsg_unsafe`: each element is (the iovec lengths of the message,
the byte count or negative errno that sendmsg returned for it).  `i` is the
loop index; when the loop runs off the end the return value is `vlen`, which
equals the final index. -/
def socket_sendmmsg_loop : Nat → List (List Nat × Int) → Int
  | i, [] => (i : Int)
  | i, (iovs, len) :: rest =>
    if i = 0 ∧ len < 0 then len
    else if i = 0 ∧ len = 0 then - L_EWOULDBLOCK
    else if len ≤ 0 then (i : Int)
    else if len < (iovs.sum : Int) then (i : Int) + 1
    else socket_sendmmsg_loop (i + 1) rest

/-- `socket_sendmmsg` on a vector of messages given the sendmsg result for
each message. -/
def socket_sendmmsg (msgs : List (List Nat)) (results : List Int) : Int :=
  socket_sendmmsg_loop 0 (msgs.zip results)

/-- C1: every host socket error code recognised by the translator maps to
exactly the Linux errno assigned by the table (in particular `WSAEHOSTDOWN`
maps to `-ETIMEDOUT`), and every unrecognised code maps to `-EIO`. -/
theorem claim1_errno_translation :
    (∀ p ∈ socket_error_table, translate_socket_error p.1 = p.2) ∧
    translate_socket_error WSAEHOSTDOWN = - L_ETIMEDOUT ∧
    ∀ e : Int, e ∉ recognised_socket_errors → translate_socket_error e = - L_EIO := by
  refine ⟨by decide, by decide, ?_⟩
  intro e he
  have hne : ∀ c ∈ recognised_socket_errors, ¬ e = c := fun c hc h => he (h ▸ hc)
  unfold translate_socket_error
  rw [if_neg (hne 0 (by decide)),
    if_neg (hne WSA_NOT_ENOUGH_MEMORY (by decide)),
    if_neg (hne WSAEINTR (by decide)),
    if_neg (hne WSAEBADF (by decide)),
    if_neg (hne WSAEACCES (by decide)),
    if_neg (hne WSAEFAULT (by decide)),
    if_neg (hne WSAEINVAL (by decide)),
    if_neg (hne WSAEMFILE (by decide)),
    if_neg (hne WSAEWOULDBLOCK (by decide)),
    if_neg (hne WSAEALREADY (by decide)),
    if_neg (hne WSAENOTSOCK (by decide)),
    if_neg (hne WSAEDESTADDRREQ (by decide)),
    if_neg (hne WSAEMSGSIZE (by decide)),
    if_neg (hne WSAEPROTOTYPE (by decide)),
    if_neg (hne WSAENOPROTOOPT (by decide)),
    if_neg (hne WSAEPROTONOSUPPORT (by decide)),
    if_neg (hne WSAESOCKTNOSUPPORT (by decide)),
    if_neg (hne WSAEOPNOTSUPP (by decide)),
    if_neg (hne WSAEPFNOSUPPORT (by decide)),
    if_neg (hne WSAEAFNOSUPPORT (by decide)),
    if_neg (hne WSAEADDRINUSE (by decide)),
    if_neg (hne WSAEADDRNOTAVAIL (by decide)),
    if_neg (hne WSAENETDOWN (by decide)),
    if_neg (hne WSAENETUNREACH (by decide)),
    if_neg (hne WSAENETRESET (by decide)),
    if_neg (hne WSAECONNABORTED (by decide)),
    if_neg (hne WSAECONNRESET (by decide)),
    if_neg (hne WSAENOBUFS (by decide)),
    if_neg (hne WSAEISCONN (by decide)),
    if_neg (hne WSAENOTCONN (by decide)),
    if_neg (hne WSAETIMEDOUT (by decide)),
    if_neg (hne WSAECONNREFUSED (by decide)),
    if_neg (hne WSAELOOP (by decide)),
    if_neg (hne WSAENAMETOOLONG (by decide)),
    if_neg (hne WSAEHOSTDOWN (by decide)),
    if_neg (hne WSAEHOSTUNREACH (by decide)),
    if_neg (hne WSAENOTEMPTY (by decide)),
    if_neg (hne WSAECANCELLED (by decide))]

/-- Witness for C1: the unrecognised-code clause evaluated at the concrete
host code 4711, which is not in the recognised set. -/
theorem claim1_errno_translation_witness :
    (4711 : Int) ∉ recognised_socket_errors ∧ translate_socket_error 4711 = - L_EIO :=
  ⟨by decide, claim1_errno_translation.2.2 4711 (by decide)⟩

theorem bucketUpdate_same (st : FutexState) (b : Nat) (l : List WaitBlock) :
    bucketUpdate st b l b = l := by
  simp [bucketUpdate]

theorem bucketUpdate_other (st : FutexState) (b : Nat) (l : List WaitBlock)
    (i : Nat) (h : i ≠ b) : bucketUpdate st b l i = st i := by
  simp [bucketUpdate, h]

theorem fwr_list_break (addr : Nat) (count : Int) (b : WaitBlock)
    (rest : List WaitBlock) :
    fwr_list addr count none (b :: rest) count = (b :: rest, [], [], count) := by
  simp [fwr_list]

theorem fwr_list_wake (addr : Nat) (count : Int) (b : WaitBlock)
    (rest : List WaitBlock) (n : Int) (hbreak : ¬ n = count)
    (hb : b.addr = addr) :
    fwr_list addr count none (b :: rest) n =
      ((fwr_list addr count none rest (n + 1)).1,
       (fwr_list addr count none rest (n + 1)).2.1,
       b.thread :: (fwr_list addr count none rest (n + 1)).2.2.1,
       (fwr_list addr count none rest (n + 1)).2.2.2) := by
  simp [fwr_list, hbreak, hb]

theorem fwr_list_skip (addr : Nat) (count : Int) (b : WaitBlock)
    (rest : List WaitBlock) (n : Int) (hbreak : ¬ n = count)
    (hb : ¬ b.addr = addr) :
    fwr_list addr count none (b :: rest) n =
      (b :: (fwr_list addr count none rest n).1,
       (fwr_list addr count none rest n).2.1,
       (fwr_list addr count none rest n).2.2.1,
       (fwr_list addr count none rest n).2.2.2) := by
  simp [fwr_list, hbreak, hb]

/-- Behaviour of the wake-mode list walk: the final `num_woken` is the minimum
of `count` and the starting value plus the number of matching blocks, exactly
that many threads are signalled, every signalled thread comes from a matching
block, and the non-matching blocks of the list are untouched. -/
theorem fwr_none_spec (addr : Nat) (count : Int) (l : List WaitBlock) :
    ∀ n : Int, n ≤ count →
      ((fwr_list addr count none l n).2.2.2 =
        min count (n + ((l.filter (fun b => b.addr == addr)).length : Int))) ∧
      (((fwr_list addr count none l n).2.2.1.length : Int) =
        (fwr_list addr count none l n).2.2.2 - n) ∧
      (∀ t ∈ (fwr_list addr count none l n).2.2.1,
        ∃ b ∈ l, b.addr = addr ∧ b.thread = t) ∧
      ((fwr_list addr count none l n).1.filter (fun b => ! (b.addr == addr)) =
        l.filter (fun b => ! (b.addr == addr))) := by
  induction l with
  | nil =>
    intro n hn
    refine ⟨?_, ?_, ?_, ?_⟩
    · show n = min count (n + ((List.length (List.filter _ [])) : Int))
      simp only [List.filter_nil, List.length_nil, Nat.cast_zero, add_zero]
      omega
    · simp [fwr_list]
    · intro t ht
      simp [fwr_list] at ht
    · rfl
  | cons b rest ih =>
    intro n hn
    by_cases hbreak : n = count
    · subst hbreak
      rw [fwr_list_break]
      refine ⟨?_, by simp, by simp, rfl⟩
      show n = min n (n + _)
      omega
    · have hlt : n + 1 ≤ count := by omega
      by_cases hb : b.addr = addr
      · obtain ⟨ih1, ih2, ih3, ih4⟩ := ih (n + 1) hlt
        rw [fwr_list_wake addr count b rest n hbreak hb]
        refine ⟨?_, ?_, ?_, ?_⟩
        · rw [ih1]
          have hlen : (((b :: rest).filter (fun b => b.addr == addr)).length : Int)
              = ((rest.filter (fun b => b.addr == addr)).length : Int) + 1 := by
            simp [List.filter_cons, hb]
          rw [hlen]
          omega
        · simp only [List.length_cons]
          push_cast
          omega
        · intro t ht
          rcases List.mem_cons.mp ht with h | h
          · exact ⟨b, List.mem_cons_self b rest, hb, h.symm⟩
          · obtain ⟨b', hb', hb'a, hb't⟩ := ih3 t h
            exact ⟨b', List.mem_cons_of_mem b hb', hb'a, hb't⟩
        · rw [ih4]
          simp [List.filter_cons, hb]
      · obtain ⟨ih1, ih2, ih3, ih4⟩ := ih n hn
        rw [fwr_list_skip addr count b rest n hbreak hb]
        refine ⟨?_, ?_, ?_, ?_⟩
        · rw [ih1]
          simp [List.filter_cons, hb]
        · exact ih2
        · intro t ht
          obtain ⟨b', hb', hb'a, hb't⟩ := ih3 t ht
          exact ⟨b', List.mem_cons_of_mem b hb', hb'a, hb't⟩
        · simp only [List.filter_cons]
          have hbb : (! (b.addr == addr)) = true := by simp [hb]
          rw [hbb]
          simp only [if_pos rfl]
          rw [ih4]

/-- C3: a futex WAIT whose expected value does not match the futex word at the
time the bucket lock is held returns 0 (not -EAGAIN) and leaves every bucket
wait list exactly as it was, enqueuing no wait block. -/
theorem claim3_wait_value_mismatch :
    ∀ (mem : Nat → Int) (st : FutexState) (tid addr : Nat) (val : Int)
      (outcome : WaitResult), mem addr ≠ val →
      futex_wait mem st tid addr val outcome = (0, st) ∧ (0 : Int) ≠ - L_EAGAIN := by
  intro mem st tid addr val outcome h
  refine ⟨?_, by decide⟩
  simp [futex_wait, h]

/-- Witness for C3 at a concrete input: futex word holds 5, expected value 4. -/
theorem claim3_wait_value_mismatch_witness :
    futex_wait (fun _ => 5) (fun _ => []) 1 0 4 WaitResult.woken
      = (0, (fun _ => [] : FutexState)) ∧ (0 : Int) ≠ - L_EAGAIN :=
  claim3_wait_value_mismatch (fun _ => 5) (fun _ => []) 1 0 4 WaitResult.woken
    (by decide)

/-- C4: CMP_REQUEUE with a mismatched expected value returns -EAGAIN, wakes no
thread and leaves every bucket wait list exactly as it was. -/
theorem claim4_cmp_requeue_mismatch :
    ∀ (mem : Nat → Int) (st : FutexState) (addr : Nat) (count : Int)
      (raddr : Nat) (v : Int), mem addr ≠ v →
      futex_wake_requeue mem st addr count (some (raddr, some v))
        = (- L_EAGAIN, [], st) := by
  intro mem st addr count raddr v h
  simp [futex_wake_requeue, h]

/-- Witness for C4 at a concrete input: futex word holds 0, expected value 7. -/
theorem claim4_cmp_requeue_mismatch_witness :
    futex_wake_requeue (fun _ => 0) (fun _ => []) 4 1 (some (8, some 7))
      = (- L_EAGAIN, [], (fun _ => [] : FutexState)) :=
  claim4_cmp_requeue_mismatch (fun _ => 0) (fun _ => []) 4 1 8 7 (by decide)

/-- Counterexample to C5 as stated: with one waiter on address 5 and n = -1,
the wake walk never reaches num_woken = count, so it wakes the waiter and
returns 1, not min(-1, 1) = -1. -/
theorem claim5_wake_negative_count_counterexample :
    (futex_wake_requeue (fun _ => 0) oneWaiterState 5 (-1) none).1 = 1 ∧
    ¬ ((1 : Int) = min (-1 : Int) (waiters_on oneWaiterState 5 : Int)) := by
  exact ⟨by decide, by decide⟩

/-- C5 (amended: for n ≥ 0): WAKE(addr, n) wakes and returns exactly
min(n, waiters_on addr), every signalled thread comes from a wait block
recorded for addr, no wait block recorded for a different address is removed
from addr's bucket, and every other bucket is untouched. -/
theorem claim5_wake_min :
    ∀ (mem : Nat → Int) (st : FutexState) (addr : Nat) (count : Int),
      0 ≤ count →
      ((futex_wake_requeue mem st addr count none).1 =
        min count (waiters_on st addr : Int)) ∧
      (((futex_wake_requeue mem st addr count none).2.1.length : Int) =
        (futex_wake_requeue mem st addr count none).1) ∧
      (∀ t ∈ (futex_wake_requeue mem st addr count none).2.1,
        ∃ b ∈ st (futex_hash addr), b.addr = addr ∧ b.thread = t) ∧
      (((futex_wake_requeue mem st addr count none).2.2 (futex_hash addr)).filter
          (fun b => ! (b.addr == addr)) =
        (st (futex_hash addr)).filter (fun b => ! (b.addr == addr))) ∧
      (∀ i, i ≠ futex_hash addr →
        (futex_wake_requeue mem st addr count none).2.2 i = st i) := by
  intro mem st addr count hc
  obtain ⟨h1, h2, h3, h4⟩ := fwr_none_spec addr count (st (futex_hash addr)) 0 hc
  simp only [futex_wake_requeue]
  refine ⟨?_, ?_, h3, ?_, ?_⟩
  · rw [h1]
    simp [waiters_on]
  · rw [h2]
    omega
  · rw [bucketUpdate_same]
    exact h4
  · intro i hi
    exact bucketUpdate_other _ _ _ _ hi

/-- Witness for C5 (amended): waking up to 3 threads on address 5 with a
single waiter wakes exactly that one waiter, min(3, 1) = 1. -/
theorem claim5_wake_min_witness :
    (futex_wake_requeue (fun _ => 0) oneWaiterState 5 3 none).1 =
      min (3 : Int) (waiters_on oneWaiterState 5 : Int) ∧
    (futex_wake_requeue (fun _ => 0) oneWaiterState 5 3 none).1 = 1 :=
  ⟨(claim5_wake_min (fun _ => 0) oneWaiterState 5 3 (by decide)).1, by decide⟩

/-- Counterexample to C2 as stated: when the read validation rejects `uaddr`
the syscall returns -EACCES, not the -EFAULT the claim requires. -/
theorem claim2_futex_validation_counterexample :
    sys_futex (fun _ _ => false) (fun _ => 0) (fun _ => []) 0 4096 0 0 none
        8192 0 WaitResult.woken
      = (- L_EACCES, [], (fun _ => [] : FutexState)) ∧
    (- L_EACCES : Int) ≠ - L_EFAULT :=
  ⟨rfl, by decide⟩

/-- C2 (amended): a futex syscall whose `uaddr` (any op) or `uaddr2` (REQUEUE
and CMP_REQUEUE) fails read validation returns -EACCES, and a WAIT whose
non-NULL timeout pointer fails read validation returns -EFAULT; in every such
case the futex state is untouched and the result does not depend on guest
memory (the pointers are never dereferenced: `mem` is universally
quantified and absent from the result). -/
theorem claim2_futex_pointer_validation :
    ∀ (chk : Nat → Nat → Bool) (mem : Nat → Int) (st : FutexState)
      (tid uaddr op : Nat) (val : Int) (timeout : Option Nat) (uaddr2 : Nat)
      (val3 : Int) (outcome : WaitResult),
      (chk uaddr sizeof_int = false →
        sys_futex chk mem st tid uaddr op val timeout uaddr2 val3 outcome
          = (- L_EACCES, [], st)) ∧
      (∀ tptr, chk uaddr sizeof_int = true →
        op &&& FUTEX_CMD_MASK = FUTEX_WAIT → timeout = some tptr →
        chk tptr sizeof_linux_timespec = false →
        sys_futex chk mem st tid uaddr op val timeout uaddr2 val3 outcome
          = (- L_EFAULT, [], st)) ∧
      ((op &&& FUTEX_CMD_MASK = FUTEX_REQUEUE ∨
          op &&& FUTEX_CMD_MASK = FUTEX_CMP_REQUEUE) →
        chk uaddr sizeof_int = true → chk uaddr2 sizeof_int = false →
        sys_futex chk mem st tid uaddr op val timeout uaddr2 val3 outcome
          = (- L_EACCES, [], st)) := by
  intro chk mem st tid uaddr op val timeout uaddr2 val3 outcome
  refine ⟨?_, ?_, ?_⟩
  · intro h
    simp [sys_futex, h]
  · intro tptr h1 h2 h3 h4
    subst h3
    simp [sys_futex, h1, h2, h4]
  · rintro (h2 | h2) h1 h3
    · simp [sys_futex, h1, h2, h3, FUTEX_REQUEUE, FUTEX_WAIT, FUTEX_WAKE]
    · simp [sys_futex, h1, h2, h3, FUTEX_CMP_REQUEUE, FUTEX_WAIT, FUTEX_WAKE,
        FUTEX_REQUEUE]

/-- Witness for C2 (amended): concrete CMP_REQUEUE call whose `uaddr` passes
validation but whose `uaddr2` fails it. -/
theorem claim2_futex_pointer_validation_witness :
    sys_futex (fun p _ => p == 4096) (fun _ => 0) (fun _ => []) 0 4096
        FUTEX_CMP_REQUEUE 1 none 8192 0 WaitResult.woken
      = (- L_EACCES, [], (fun _ => [] : FutexState)) :=
  (claim2_futex_pointer_validation (fun p _ => p == 4096) (fun _ => 0)
      (fun _ => []) 0 4096 FUTEX_CMP_REQUEUE 1 none 8192 0
      WaitResult.woken).2.2 (Or.inr (by decide)) (by decide) (by decide)

/-- Loop invariant of `socket_sendmmsg`: if every message in the remaining
vector was sent fully with a positive byte count, the loop runs to the end
and returns the starting index plus the number of messages. -/
theorem sendmmsg_loop_full (l : List (List Nat × Int)) :
    ∀ i : Nat, (∀ p ∈ l, 0 < p.2 ∧ p.2 = (p.1.sum : Int)) →
      socket_sendmmsg_loop i l = (i : Int) + l.length := by
  induction l with
  | nil =>
    intro i h
    simp [socket_sendmmsg_loop]
  | cons p rest ih =>
    intro i h
    obtain ⟨iovs, len⟩ := p
    obtain ⟨hpos, hfull⟩ := h (iovs, len) (List.mem_cons_self _ rest)
    simp only at hpos hfull
    have h1 : ¬ (i = 0 ∧ len < 0) := by rintro ⟨_, hl⟩; omega
    have h2 : ¬ (i = 0 ∧ len = 0) := by rintro ⟨_, hl⟩; omega
    have h3 : ¬ (len ≤ 0) := by omega
    have h4 : ¬ (len < (iovs.sum : Int)) := by omega
    simp only [socket_sendmmsg_loop, h1, h2, h3, h4, if_false]
    rw [ih (i + 1) (fun q hq => h q (List.mem_cons_of_mem _ hq))]
    simp only [List.length_cons]
    push_cast
    ring

/-- Loop invariant of `socket_sendmmsg` for a short send: after a prefix of
fully-sent messages, a message whose byte count is positive but below its
iovec total stops the loop and the count includes that message. -/
theorem sendmmsg_loop_short (m : List Nat) (r : Int) (tail : List (List Nat × Int))
    (hr0 : 0 < r) (hrs : r < (m.sum : Int)) :
    ∀ (zl : List (List Nat × Int)) (i : Nat),
      (∀ p ∈ zl, 0 < p.2 ∧ p.2 = (p.1.sum : Int)) →
      socket_sendmmsg_loop i (zl ++ (m, r) :: tail) = (i : Int) + zl.length + 1 := by
  intro zl
  induction zl with
  | nil =>
    intro i h
    have h1 : ¬ (i = 0 ∧ r < 0) := by rintro ⟨_, hl⟩; omega
    have h2 : ¬ (i = 0 ∧ r = 0) := by rintro ⟨_, hl⟩; omega
    have h3 : ¬ (r ≤ 0) := by omega
    simp only [List.nil_append, socket_sendmmsg_loop, h1, h2, h3, hrs, if_false,
      if_true, List.length_nil]
    push_cast
    ring
  | cons p rest ih =>
    intro i h
    obtain ⟨iovs, len⟩ := p
    obtain ⟨hpos, hfull⟩ := h (iovs, len) (List.mem_cons_self _ rest)
    simp only at hpos hfull
    have h1 : ¬ (i = 0 ∧ len < 0) := by rintro ⟨_, hl⟩; omega
    have h2 : ¬ (i = 0 ∧ len = 0) := by rintro ⟨_, hl⟩; omega
    have h3 : ¬ (len ≤ 0) := by omega
    have h4 : ¬ (len < (iovs.sum : Int)) := by omega
    simp only [List.cons_append, socket_sendmmsg_loop, h1, h2, h3, h4, if_false]
    rw [show rest.append ((m, r) :: tail) = rest ++ (m, r) :: tail from rfl]
    rw [ih (i + 1) (fun q hq => h q (List.mem_cons_of_mem _ hq))]
    simp only [List.length_cons]
    push_cast
    ring

/-- C6: sendmmsg aggregation.  (a) A vector of K messages all sent fully with
positive byte counts returns K.  (b) A failure on the very first message
returns the error verbatim.  (c) A zero-byte send on the first message
returns -EWOULDBLOCK.  (d) After i fully-sent messages, a short send on the
i-th message (0-based) stops the loop and returns i + 1, counting the
partially-sent message. -/
theorem claim6_sendmmsg_aggregation :
    (∀ (msgs : List (List Nat)) (results : List Int),
      msgs.length = results.length →
      (∀ p ∈ msgs.zip results, 0 < p.2 ∧ p.2 = (p.1.sum : Int)) →
      socket_sendmmsg msgs results = (msgs.length : Int)) ∧
    (∀ (m : List Nat) (ms : List (List Nat)) (r : Int) (rs : List Int),
      r < 0 → socket_sendmmsg (m :: ms) (r :: rs) = r) ∧
    (∀ (m : List Nat) (ms : List (List Nat)) (rs : List Int),
      socket_sendmmsg (m :: ms) (0 :: rs) = - L_EWOULDBLOCK) ∧
    (∀ (pre : List (List Nat)) (m : List Nat) (post : List (List Nat))
      (rpre : List Int) (r : Int) (rpost : List Int),
      pre.length = rpre.length →
      (∀ p ∈ pre.zip rpre, 0 < p.2 ∧ p.2 = (p.1.sum : Int)) →
      0 < r → r < (m.sum : Int) →
      socket_sendmmsg (pre ++ m :: post) (rpre ++ r :: rpost)
        = (pre.length : Int) + 1) := by
  refine ⟨?_, ?_, ?_, ?_⟩
  · intro msgs results hlen h
    unfold socket_sendmmsg
    rw [sendmmsg_loop_full (msgs.zip results) 0 h]
    simp [List.length_zip, hlen]
  · intro m ms r rs hr
    simp [socket_sendmmsg, socket_sendmmsg_loop, hr]
  · intro m ms rs
    simp [socket_sendmmsg, socket_sendmmsg_loop]
  · intro pre m post rpre r rpost hlen h hr0 hrs
    unfold socket_sendmmsg
    rw [List.zip_append hlen, List.zip_cons_cons,
      sendmmsg_loop_short m r (post.zip rpost) hr0 hrs (pre.zip rpre) 0 h]
    simp [List.length_zip, hlen]

/-- Witness for C6: two messages of 2 and 3 bytes, both sent fully, yield 2;
a short send (2 of 5 bytes) on the second of three messages yields 2. -/
theorem claim6_sendmmsg_aggregation_witness :
    socket_sendmmsg [[2], [3]] [2, 3] = 2 ∧
    socket_sendmmsg [[1]] [(-11)] = -11 ∧
    socket_sendmmsg [[1]] [0] = - L_EWOULDBLOCK ∧
    socket_sendmmsg [[3], [5], [7]] [3, 2, 7] = 2 := by
  refine ⟨?_, ?_, ?_, ?_⟩
  · have h := claim6_sendmmsg_aggregation.1 [[2], [3]] [2, 3] (by decide)
      (by decide)
    simpa using h
  · exact claim6_sendmmsg_aggregation.2.1 [1] [] (-11) [] (by decide)
  · exact claim6_sendmmsg_aggregation.2.2.1 [1] [] []
  · have h := claim6_sendmmsg_aggregation.2.2.2 [[3]] [5] [[7]] [3] 2 [7]
      (by decide) (by decide) (by decide) (by decide)
    simpa using h

/-- C7: with O_NONBLOCK set on the file (or MSG_DONTWAIT in the call's flags)
`socket_wait_event` never enters the interruptible wait primitive; when the
required readiness is absent on the first event drain it returns -EWOULDBLOCK;
and a non-blocking `connect` whose host connect reports WOULDBLOCK returns
-EINPROGRESS without waiting. -/
theorem claim7_nonblocking_never_waits :
    ∀ (nonblock dontwait : Bool) (event : Nat) (trace : List (Nat × SigWait)),
      nonblock = true ∨ dontwait = true →
      ((socket_wait_event nonblock dontwait event trace).2.2 = 0) ∧
      (∀ e s rest, trace = (e, s) :: rest → e &&& event = 0 →
        (socket_wait_event nonblock dontwait event trace).1
          = some (- L_EWOULDBLOCK)) ∧
      (∀ ctr : List (Nat × Int × SigWait),
        socket_connect true WSAEWOULDBLOCK ctr = some (- L_EINPROGRESS)) := by
  intro nonblock dontwait event trace h
  have hnd : (nonblock || dontwait) = true := by
    rcases h with h | h <;> simp [h]
  refine ⟨?_, ?_, ?_⟩
  · cases trace with
    | nil => rfl
    | cons p rest =>
      obtain ⟨e, s⟩ := p
      by_cases he : e &&& event = 0
      · simp [socket_wait_event, he, hnd]
      · simp [socket_wait_event, he]
  · rintro e s rest rfl he
    simp [socket_wait_event, he, hnd]
  · intro ctr
    simp [socket_connect, WSAEWOULDBLOCK]

/-- Witness for C7: a non-blocking socket with no write readiness returns
-EWOULDBLOCK, entering the wait primitive zero times, and a non-blocking
connect on a would-block host connect returns -EINPROGRESS. -/
theorem claim7_nonblocking_never_waits_witness :
    (socket_wait_event true false FD_WRITE [(0, SigWait.signaled)]).1
      = some (- L_EWOULDBLOCK) ∧
    (socket_wait_event true false FD_WRITE [(0, SigWait.signaled)]).2.2 = 0 ∧
    socket_connect true WSAEWOULDBLOCK [] = some (- L_EINPROGRESS) := by
  have h := claim7_nonblocking_never_waits true false FD_WRITE
    [(0, SigWait.signaled)] (Or.inl rfl)
  exact ⟨h.2.1 0 SigWait.signaled [] rfl (by decide), h.1, h.2.2 []⟩

/-- C8: the interruptible wait itself reports the interruption as -EINTR, but
`socket_connect` discards the return value of `socket_wait_event`
(socket.c:809) and translates the thread's stale last error instead, so a
blocking connect interrupted by a signal returns -EWOULDBLOCK, not the -EINTR
the specification requires. -/
theorem claim8_connect_swallows_eintr :
    socket_wait_event false false FD_CONNECT [(0, SigWait.interrupted)]
      = (some (- L_EINTR), [], 1) ∧
    socket_connect false WSAEWOULDBLOCK [(0, 0, SigWait.interrupted)]
      = some (- L_EWOULDBLOCK) ∧
    (- L_EWOULDBLOCK : Int) ≠ - L_EINTR := by
  refine ⟨by decide, by decide, by decide⟩

/-- C9: guest-to-host followed by host-to-guest translation of a valid INET6
sockaddr byte image (family field 10, little endian; length at least the
28 bytes of sockaddr_in6) yields exactly the first addrlen guest bytes again:
every byte past the 2-byte family field — in particular the port bytes at
offsets 2-3 and the address bytes at offsets 8-23 — is preserved, and the
family field is restored to the Linux value. -/
theorem claim9_inet6_roundtrip :
    ∀ (rest : List Nat) (addrlen : Nat), sizeof_sockaddr_in6 ≤ addrlen →
      translate_socket_addr_to_winsock (10 :: 0 :: rest) addrlen
        = some (23 :: 0 :: rest.take (addrlen - 2)) ∧
      translate_socket_addr_to_linux (23 :: 0 :: rest.take (addrlen - 2))
        = 10 :: 0 :: rest.take (addrlen - 2) ∧
      (10 :: 0 :: rest.take (addrlen - 2)) = (10 :: 0 :: rest).take addrlen ∧
      getFamily (10 :: 0 :: rest.take (addrlen - 2)) = LINUX_AF_INET6 := by
  intro rest addrlen h28
  simp only [sizeof_sockaddr_in6] at h28
  obtain ⟨k, rfl⟩ : ∃ k, addrlen = k + 28 := ⟨addrlen - 28, by omega⟩
  have htake : (10 :: 0 :: rest).take (k + 28) = 10 :: 0 :: rest.take (k + 26) := by
    have he : k + 28 = ((k + 26) + 1) + 1 := by omega
    rw [he]
    simp [List.take_succ_cons]
  have hsub : k + 28 - 2 = k + 26 := by omega
  have h1 : ¬ (k + 28 < sizeof_ss_family) := by
    simp only [sizeof_ss_family]; omega
  have h2 : ¬ (k + 28 < sizeof_sockaddr_in6) := by
    simp only [sizeof_sockaddr_in6]; omega
  refine ⟨?_, ?_, ?_, ?_⟩
  · simp only [translate_socket_addr_to_winsock, h1, if_false, hsub]
    rw [htake]
    simp [getFamily, setFamily, LINUX_AF_UNSPEC, LINUX_AF_INET, LINUX_AF_INET6,
      AF_INET6, h2]
  · simp [translate_socket_addr_to_linux, getFamily, setFamily, AF_INET6,
      LINUX_AF_INET6]
  · rw [hsub, htake]
  · simp [getFamily, LINUX_AF_INET6]

/-- Witness for C9 at a concrete 28-byte INET6 sockaddr filled with byte 7
past the family field. -/
theorem claim9_inet6_roundtrip_witness :
    translate_socket_addr_to_winsock (10 :: 0 :: List.replicate 26 7) 28
      = some (23 :: 0 :: (List.replicate 26 7).take (28 - 2)) ∧
    translate_socket_addr_to_linux (23 :: 0 :: (List.replicate 26 7).take (28 - 2))
      = 10 :: 0 :: (List.replicate 26 7).take (28 - 2) :=
  ⟨(claim9_inet6_roundtrip (List.replicate 26 7) 28 (by decide)).1,
   (claim9_inet6_roundtrip (List.replicate 26 7) 28 (by decide)).2.1⟩

/-- Counterexample to C10 as stated: a UNIX-family socket whose host
getsockname fails with WSAEINVAL does not get a synthesized sockaddr; the
call fails with -EOPNOTSUPP instead of succeeding. -/
theorem claim10_unix_family_counterexample :
    socket_getsockname LINUX_AF_UNIX (HostSockname.err WSAEINVAL) 112
      = (- L_EOPNOTSUPP, none) ∧ (- L_EOPNOTSUPP : Int) ≠ 0 :=
  ⟨rfl, by decide⟩

/-- C10 (amended): when the host getsockname fails with WSAEINVAL (unbound
socket), the operation succeeds for stored families INET and INET6, writing
back an all-zero sockaddr (its family field therefore zero) whose length is
the sockaddr size of the stored family; every other stored family, including
UNIX, fails with -EOPNOTSUPP. -/
theorem claim10_getsockname_unbound :
    ∀ alen : Nat,
      (socket_getsockname LINUX_AF_INET (HostSockname.err WSAEINVAL) alen
        = (0, some (List.replicate (min alen sizeof_sockaddr_in) 0,
            sizeof_sockaddr_in))) ∧
      (socket_getsockname LINUX_AF_INET6 (HostSockname.err WSAEINVAL) alen
        = (0, some (List.replicate (min alen sizeof_sockaddr_in6) 0,
            sizeof_sockaddr_in6))) ∧
      (∀ af, af ≠ LINUX_AF_INET → af ≠ LINUX_AF_INET6 →
        socket_getsockname af (HostSockname.err WSAEINVAL) alen
          = (- L_EOPNOTSUPP, none)) := by
  intro alen
  refine ⟨rfl, ?_, ?_⟩
  · simp [socket_getsockname, LINUX_AF_INET, LINUX_AF_INET6]
  · intro af h2 h6
    simp [socket_getsockname, h2, h6]

/-- Witness for C10 (amended) at a concrete 8-byte output buffer. -/
theorem claim10_getsockname_unbound_witness :
    socket_getsockname LINUX_AF_INET (HostSockname.err WSAEINVAL) 8
      = (0, some (List.replicate (min 8 sizeof_sockaddr_in) 0,
          sizeof_sockaddr_in)) ∧
    socket_getsockname LINUX_AF_UNIX (HostSockname.err WSAEINVAL) 8
      = (- L_EOPNOTSUPP, none) :=
  ⟨(claim10_getsockname_unbound 8).1,
   (claim10_getsockname_unbound 8).2.2 LINUX_AF_UNIX (by decide) (by decide)⟩
